import Mathlib

/-!
Verification of the fsspec core against its specification.

The development embeds `fsspec/registry.py` directly, and models the
components whose implementation files are not part of the shown sources
(instance cache, caching filesystem, listing cache, range-read engine,
async/sync bridge) from the specification text.
-/

set_option autoImplicit false

namespace fsspec

/-! ### Association lists (Python dict model) -/

/-- Lookup in an association list, the model of a Python `dict` access. -/
def alookup {α β : Type} [DecidableEq α] : List (α × β) → α → Option β
  | [], _ => none
  | (k, v) :: rest, key => if k = key then some v else alookup rest key

/-- Update (or append) a binding, the model of Python `d[k] = v`. -/
def aupdate {α β : Type} [DecidableEq α] : List (α × β) → α → β → List (α × β)
  | [], k, v => [(k, v)]
  | (k0, v0) :: rest, k, v =>
    if k0 = k then (k, v) :: rest else (k0, v0) :: aupdate rest k v

/-! ### Embedding of `fsspec/registry.py` -/

/-- One entry of `known_implementations`: the dotted class path and the
optional remediation hint stored under the `err` key. -/
structure ImplEntry where
  cls : String
  err : Option String
deriving DecidableEq

/-- The shared `gcs` entry of `registry.py`. -/
def gcs : ImplEntry := ⟨"gcsfs.GCSFileSystem", some "Please install gcsfs"⟩

/-- The `known_implementations` table of `registry.py`, verbatim. -/
def known_implementations : List (String × ImplEntry) :=
  [ ("file", ⟨"fsspec.implementations.local.LocalFileSystem", none⟩),
    ("memory", ⟨"fsspec.implementations.memory.MemoryFileSystem", none⟩),
    ("http", ⟨"fsspec.implementations.http.HTTPFileSystem",
              some "HTTPFileSystem requires \"requests\" to be installed"⟩),
    ("https", ⟨"fsspec.implementations.http.HTTPFileSystem",
               some "HTTPFileSystem requires \"requests\" to be installed"⟩),
    ("zip", ⟨"fsspec.implementations.zip.ZipFileSystem", none⟩),
    ("gcs", gcs), ("gs", gcs),
    ("sftp", ⟨"fsspec.implementations.sftp.SFTPFileSystem",
              some "SFTPFileSystem requires \"paramiko\" to be installed"⟩) ]

/-- The module-level `default = 'file'` of `registry.py`. -/
def default : String := "file"

/-- A filesystem class object: its module, attribute name, and its mutable
`protocol` class attribute (`none` models Python `None`). -/
structure FSClass where
  module : String
  name : String
  protocol : Option String
deriving DecidableEq

/-- The process-wide `registry` dict: protocol name to implementation class. -/
def Registry : Type := List (String × FSClass)

/-- The Python exceptions `get_filesystem_class` can raise. -/
inductive PyError where
  | valueError (msg : String)
  | runtimeError (msg : String)
  | keyError (key : String)
deriving DecidableEq

/-- Outcome of `importlib.import_module` combined with the `getattr`:
success yields the class object; an `ImportError` is recorded (its own
message is discarded by the source); any other exception carries its
`str(e)` text. -/
inductive ImportOutcome where
  | ok (cls : FSClass)
  | importError
  | otherExc (msg : String)
deriving DecidableEq

/-- Python `s.rsplit('.', 1)`: split a dotted path into module and name. -/
def rsplitDot (s : String) : String × String :=
  let parts := s.splitOn "."
  (String.intercalate "." parts.dropLast, parts.getLastD "")

/-- The in-place stamping `if cls.protocol == 'abstract' or cls.protocol is
None: cls.protocol = protocol` at the end of `get_filesystem_class`. -/
def stampProtocol (cls : FSClass) (protocol : String) : FSClass :=
  if cls.protocol = some "abstract" ∨ cls.protocol = none then
    { cls with protocol := some protocol }
  else cls

/-- `get_filesystem_class(protocol)` from `registry.py`, with the import
system passed in as the environment `imp`.  Returns the raised exception or
the class, together with the resulting global `registry` state.  A `none`
protocol falls back to `default`; an unknown protocol raises `ValueError`;
an `ImportError` during the lazy import raises `RuntimeError` carrying the
entry's recorded `err` hint (a `KeyError` when no hint is recorded); any
other import-time exception raises `RuntimeError` carrying `str(e)`. -/
def get_filesystem_class (imp : String → ImportOutcome) (protocol? : Option String)
    (reg : Registry) : Except PyError FSClass × Registry :=
  let protocol := protocol?.getD default
  match alookup reg protocol with
  | some cls =>
      (Except.ok (stampProtocol cls protocol),
       aupdate reg protocol (stampProtocol cls protocol))
  | none =>
      match alookup known_implementations protocol with
      | none =>
          (Except.error (PyError.valueError ("Protocol not known: " ++ protocol)), reg)
      | some bit =>
          match imp (rsplitDot bit.cls).1 with
          | ImportOutcome.ok cls =>
              (Except.ok (stampProtocol cls protocol),
               aupdate reg protocol (stampProtocol cls protocol))
          | ImportOutcome.importError =>
              match bit.err with
              | some hint => (Except.error (PyError.runtimeError hint), reg)
              | none => (Except.error (PyError.keyError "err"), reg)
          | ImportOutcome.otherExc msg =>
              (Except.error (PyError.runtimeError msg), reg)

/-! ### Instance cache of the registry -/

/-- Modelled from the spec: a backend instance produced by the registry; the
`id` field models Python object identity, so two instances are the same
object exactly when their ids agree. -/
structure FSInstance where
  id : Nat
  protocol : String
  options : List (String × String)
deriving DecidableEq

/-- Insert one option into an option list sorted by key. -/
def insertOpt (x : String × String) : List (String × String) → List (String × String)
  | [] => [x]
  | y :: ys => if x.1 ≤ y.1 then x :: y :: ys else y :: insertOpt x ys

/-- Modelled from the spec: canonicalization of the options map sorts the
entries for deterministic hashing, giving the `FilesystemKey`. -/
def canonicalOptions (opts : List (String × String)) : List (String × String) :=
  opts.foldr insertOpt []

/-- Modelled from the spec: the process-wide instance cache, a mapping from
`FilesystemKey` to the singleton backend instance, plus a counter supplying
fresh object identities. -/
structure InstanceCacheState where
  cache : List ((String × List (String × String)) × FSInstance)
  nextId : Nat
deriving DecidableEq

/-- Modelled from the spec: `resolve(protocol, options)`.  With
`skip_instance_cache` unset it computes the `FilesystemKey`, returns the
existing entry when present, and otherwise constructs a fresh instance and
stores it under the key; with `skip_instance_cache` set the cache is
bypassed and a fresh instance is constructed unconditionally. -/
def resolve (skip_instance_cache : Bool) (protocol : String)
    (options : List (String × String)) (st : InstanceCacheState) :
    FSInstance × InstanceCacheState :=
  if skip_instance_cache then
    (⟨st.nextId, protocol, options⟩, { st with nextId := st.nextId + 1 })
  else
    let key := (protocol, canonicalOptions options)
    match alookup st.cache key with
    | some inst => (inst, st)
    | none =>
        (⟨st.nextId, protocol, options⟩,
         ⟨(key, ⟨st.nextId, protocol, options⟩) :: st.cache, st.nextId + 1⟩)

/-! ### Coverage state of a cache entry -/

/-- Modelled from the spec: the `covered` field of a `CacheEntry`, either
`Full` or an ordered set of non-overlapping half-open byte ranges. -/
inductive Covered where
  | full
  | ranges (rs : List (Nat × Nat))
deriving DecidableEq

/-- Merge the half-open range `[a, b)` into a range list, coalescing
adjacent or overlapping ranges into one. -/
def insertRange (a b : Nat) : List (Nat × Nat) → List (Nat × Nat)
  | [] => [(a, b)]
  | (s, e) :: rest =>
    if b < s then (a, b) :: (s, e) :: rest
    else if e < a then (s, e) :: insertRange a b rest
    else insertRange (min a s) (max b e) rest

/-- Byte `x` lies in one of the ranges of the list. -/
def rangesMem : List (Nat × Nat) → Nat → Bool
  | [], _ => false
  | (s, e) :: rest, x => (decide (s ≤ x) && decide (x < e)) || rangesMem rest x

/-- Byte `x` is covered by the cache entry. -/
def Covered.mem : Covered → Nat → Bool
  | Covered.full, _ => true
  | Covered.ranges rs, x => rangesMem rs x

/-- Modelled from the spec: a random-access read of `[r.1, r.2)` merges the
new range into the existing coverage using interval union. -/
def Covered.addRange : Covered → Nat × Nat → Covered
  | Covered.full, _ => Covered.full
  | Covered.ranges rs, r => Covered.ranges (insertRange r.1 r.2 rs)

/-- Modelled from the spec: a whole-file read always sets `covered = Full`. -/
def Covered.catRead : Covered → Covered := fun _ => Covered.full

/-- Apply a sequence of random-access reads to a coverage state. -/
def applyReads (ops : List (Nat × Nat)) (c : Covered) : Covered :=
  ops.foldl Covered.addRange c

/-! ### Staleness policy of the caching filesystem -/

/-- Modelled from the spec: the underlying backend, mapping each path to the
current content bytes and modification time. -/
structure Backend where
  files : List (String × (List Nat × Nat))
deriving DecidableEq

/-- Modelled from the spec: the cache index, mapping each cached path to the
locally stored bytes together with the recorded `size` and `mtime`. -/
structure CacheState where
  entries : List (String × (List Nat × (Nat × Nat)))
deriving DecidableEq

/-- Modelled from the spec: a read through the caching filesystem.  With
`check = false` (the default) a cached entry is trusted unconditionally,
even if the backend object has changed or disappeared; with `check = true`
the stored `size`/`mtime` are revalidated against the backend's current
metadata, and a mismatch invalidates the entry and triggers a fresh fetch.
A cache miss fetches from the backend and records the entry. -/
def cachedOpen (check : Bool) (b : Backend) (c : CacheState) (p : String) :
    Option (List Nat) × CacheState :=
  match alookup c.entries p with
  | some (data, sz, mt) =>
      if check then
        match alookup b.files p with
        | some (data2, mt2) =>
            if sz = data2.length ∧ mt = mt2 then (some data, c)
            else
              (some data2,
               ⟨aupdate c.entries p (data2, data2.length, mt2)⟩)
        | none => (none, c)
      else (some data, c)
  | none =>
      match alookup b.files p with
      | some (data2, mt2) =>
          (some data2, ⟨aupdate c.entries p (data2, data2.length, mt2)⟩)
      | none => (none, c)

/-! ### Directory-listing cache keying -/

/-- Modelled from the spec: the constructor options of an HTTP-style backend
that participate in the `FilesystemKey`: whether the listing cache is
enabled and its TTL (`listings_expiry_time`). -/
structure HttpOptions where
  use_listings_cache : Bool
  listings_expiry_time : Nat
deriving DecidableEq

/-- Modelled from the spec: the registry's instance table for such backends:
each distinct option key owns one instance (an identity) together with that
instance's directory-listing cache. -/
structure ListingState where
  instances : List (HttpOptions × (Nat × List (String × List String)))
  nextId : Nat
deriving DecidableEq

/-- Modelled from the spec: constructing a filesystem for the given options
returns the registry-deduplicated instance (identity and its dircache view)
when the key exists, and otherwise a fresh instance with an empty dircache. -/
def resolveHttp (o : HttpOptions) (st : ListingState) :
    (Nat × List (String × List String)) × ListingState :=
  match alookup st.instances o with
  | some inst => (inst, st)
  | none =>
      ((st.nextId, []),
       ⟨(o, (st.nextId, [])) :: st.instances, st.nextId + 1⟩)

/-- Modelled from the spec: a listing obtained for `path` is stored in the
instance's dircache, and only when the instance was constructed with the
listing cache enabled. -/
def putListing (o : HttpOptions) (path : String) (listing : List String)
    (st : ListingState) : ListingState :=
  if o.use_listings_cache then
    match alookup st.instances o with
    | some (id, dc) =>
        ⟨aupdate st.instances o (id, (path, listing) :: dc), st.nextId⟩
    | none => st
  else st

/-! ### Async/sync bridge -/

/-- Modelled from the spec: the bridge state of a backend instance, a
dedicated background thread owning its persistent event loop. -/
structure Bridge where
  loopThread : Nat
deriving DecidableEq

/-- Modelled from the spec: a blocking-mode call through the bridge.  When
the calling thread is the very thread running the owning loop, the call
fails fast with a descriptive error instead of submitting work it would
deadlock on; otherwise the routine's result is returned to the caller. -/
def Bridge.sync {α : Type} (br : Bridge) (callerThread : Nat) (result : α) :
    Except String α :=
  if callerThread = br.loopThread then
    Except.error "sync() called from thread running the event loop"
  else Except.ok result

/-! ### Range reads with negative offsets -/

/-- Resolve one Python slice bound against a length `n`: negative indices
count from the end and clamp at 0, non-negative ones clamp at `n`. -/
def sliceIndex (n : Nat) (i : Int) : Nat :=
  if i < 0 then ((n : Int) + i).toNat else min i.toNat n

/-- Modelled from the spec: `read_range(start, end)` over known content,
with conventional negative-index slicing semantics; an absent bound means
the start, respectively the end, of the object. -/
def read_range (content : List Nat) (start stop : Option Int) : List Nat :=
  let n := content.length
  let s := match start with
    | some i => sliceIndex n i
    | none => 0
  let e := match stop with
    | some i => sliceIndex n i
    | none => n
  (content.take e).drop s

/-! ### Zero content-length handling -/

/-- Modelled from the spec: the per-handle read strategy chosen by the
capability probe. -/
inductive Strategy where
  | rangeCapable (size : Nat)
  | streaming
deriving DecidableEq

/-- Modelled from the spec: a reported `Content-Length` of 0 is treated as
unknown (servers are known to misreport it), falling back to streaming;
a positive length fixes the handle's known size. -/
def chooseStrategy (contentLength : Option Nat) : Strategy :=
  match contentLength with
  | some n => if n = 0 then Strategy.streaming else Strategy.rangeCapable n
  | none => Strategy.streaming

/-- Reading the whole object under a strategy: a range-capable handle reads
exactly the known size, a streaming handle reads until end of stream and so
returns the actual full content. -/
def readAll (content : List Nat) : Strategy → List Nat
  | Strategy.rangeCapable size => content.take size
  | Strategy.streaming => content

end fsspec

namespace fsspec

/-! ### Theorems about the registry loader -/

/-- C9: if `get_filesystem_class` raises (unknown protocol or failed import),
the global registry is left exactly as it was, so a later call for the same
protocol retries resolution from scratch. -/
theorem C9_registry_atomic_on_failure (imp : String → ImportOutcome)
    (protocol? : Option String) (reg : Registry) (e : PyError)
    (h : (get_filesystem_class imp protocol? reg).1 = Except.error e) :
    (get_filesystem_class imp protocol? reg).2 = reg := by
  unfold get_filesystem_class at h ⊢
  cases h1 : alookup reg (protocol?.getD default) with
  | some cls => simp [h1] at h
  | none =>
    simp only [h1] at h ⊢
    cases h2 : alookup known_implementations (protocol?.getD default) with
    | none => simp [h2]
    | some bit =>
      simp only [h2] at h ⊢
      cases h3 : imp (rsplitDot bit.cls).1 with
      | ok cls => simp [h3] at h
      | importError =>
        simp only [h3] at h ⊢
        cases h4 : bit.err <;> simp [h4]
      | otherExc msg => simp [h3]

/-- C9 witness: a failed import of the `gcs` backend on an empty registry
raises and leaves the registry empty. -/
theorem C9_witness :
    (get_filesystem_class (fun _ => ImportOutcome.importError) (some "gcs") []).1
      = Except.error (PyError.runtimeError "Please install gcsfs")
    ∧ (get_filesystem_class (fun _ => ImportOutcome.importError) (some "gcs") []).2 = [] :=
  ⟨rfl,
   C9_registry_atomic_on_failure (fun _ => ImportOutcome.importError) (some "gcs") []
     (PyError.runtimeError "Please install gcsfs") rfl⟩

/-- C4 counterexample: the dependency-missing error is not distinct from the
generic error: when importing `gcsfs` raises a non-ImportError exception whose
message happens to equal the recorded hint, `get_filesystem_class` raises
exactly the same `RuntimeError` value as it does for a genuine `ImportError`. -/
theorem C4_counterexample :
    (get_filesystem_class (fun _ => ImportOutcome.importError) (some "gcs") []).1
      = (get_filesystem_class (fun _ => ImportOutcome.otherExc "Please install gcsfs")
          (some "gcs") []).1
    ∧ (get_filesystem_class (fun _ => ImportOutcome.importError) (some "gcs") []).1
      = Except.error (PyError.runtimeError "Please install gcsfs") :=
  ⟨rfl, rfl⟩

/-- C4 amended: for a known protocol with a recorded remediation hint, an
`ImportError` during the lazy import raises `RuntimeError` carrying the hint,
while any other import-time exception raises `RuntimeError` carrying that
exception's own message; both share the same exception class, and the two
raised errors are distinct exactly when the hint differs from the other
exception's message. -/
theorem C4_dependency_error (p hint msg : String) (bit : ImplEntry) (reg : Registry)
    (hreg : alookup reg p = none)
    (hknown : alookup known_implementations p = some bit)
    (hhint : bit.err = some hint) :
    (get_filesystem_class (fun _ => ImportOutcome.importError) (some p) reg).1
      = Except.error (PyError.runtimeError hint)
    ∧ (get_filesystem_class (fun _ => ImportOutcome.otherExc msg) (some p) reg).1
      = Except.error (PyError.runtimeError msg)
    ∧ (hint ≠ msg →
        (get_filesystem_class (fun _ => ImportOutcome.importError) (some p) reg).1
          ≠ (get_filesystem_class (fun _ => ImportOutcome.otherExc msg) (some p) reg).1) := by
  refine ⟨?_, ?_, ?_⟩
  · unfold get_filesystem_class
    simp [hreg, hknown, hhint]
  · unfold get_filesystem_class
    simp [hreg, hknown]
  · intro hne
    unfold get_filesystem_class
    simp [hreg, hknown, hhint]
    exact hne

/-- C4 witness: the amended statement at protocol `gcs`, hint
`Please install gcsfs` and a generic import-time exception `boom`. -/
theorem C4_witness :
    ((get_filesystem_class (fun _ => ImportOutcome.importError) (some "gcs") []).1
        = Except.error (PyError.runtimeError "Please install gcsfs"))
    ∧ ((get_filesystem_class (fun _ => ImportOutcome.otherExc "boom") (some "gcs") []).1
        = Except.error (PyError.runtimeError "boom"))
    ∧ ("Please install gcsfs" ≠ "boom" →
        (get_filesystem_class (fun _ => ImportOutcome.importError) (some "gcs") []).1
          ≠ (get_filesystem_class (fun _ => ImportOutcome.otherExc "boom") (some "gcs") []).1) :=
  C4_dependency_error "gcs" "Please install gcsfs" "boom" gcs [] rfl (by decide) rfl

/-- C10: calling `get_filesystem_class` with protocol `None` behaves exactly
as calling it with the default protocol string `file`, whose recorded
implementation is the local filesystem class. -/
theorem C10_default_protocol (imp : String → ImportOutcome) (reg : Registry) :
    get_filesystem_class imp none reg = get_filesystem_class imp (some "file") reg
    ∧ alookup known_implementations "file"
        = some ⟨"fsspec.implementations.local.LocalFileSystem", none⟩ :=
  ⟨rfl, by decide⟩

/-- C10 witness: the default-protocol property at a concrete import
environment and the empty registry. -/
theorem C10_witness :
    get_filesystem_class (fun _ => ImportOutcome.importError) none []
      = get_filesystem_class (fun _ => ImportOutcome.importError) (some "file") []
    ∧ alookup known_implementations "file"
        = some ⟨"fsspec.implementations.local.LocalFileSystem", none⟩ :=
  C10_default_protocol (fun _ => ImportOutcome.importError) []

/-! ### Theorems about the instance cache -/

/-- C1: resolving the same `(protocol, options)` twice returns the identical
instance, while two resolutions with `skip_instance_cache` set return
distinct instances. -/
theorem C1_registry_idempotence (p : String) (o : List (String × String))
    (st : InstanceCacheState) :
    (resolve false p o (resolve false p o st).2).1 = (resolve false p o st).1
    ∧ (resolve true p o (resolve true p o st).2).1 ≠ (resolve true p o st).1 := by
  constructor
  · unfold resolve
    cases h : alookup st.cache (p, canonicalOptions o) with
    | some inst => simp [h]
    | none => simp [h, alookup]
  · unfold resolve
    simp

/-- C1 witness: the property at protocol `file`, empty options and the
empty instance cache. -/
theorem C1_witness :
    (resolve false "file" [] (resolve false "file" [] ⟨[], 0⟩).2).1
      = (resolve false "file" [] ⟨[], 0⟩).1
    ∧ (resolve true "file" [] (resolve true "file" [] ⟨[], 0⟩).2).1
      ≠ (resolve true "file" [] ⟨[], 0⟩).1 :=
  C1_registry_idempotence "file" [] ⟨[], 0⟩

/-! ### Theorems about cache coverage -/

/-- The merged-in range itself is covered after an `insertRange`. -/
theorem rangesMem_insertRange_self (x : Nat) :
    ∀ (rs : List (Nat × Nat)) (a b : Nat), a ≤ x → x < b →
      rangesMem (insertRange a b rs) x = true := by
  intro rs
  induction rs with
  | nil =>
    intro a b hax hxb
    simp [insertRange, rangesMem, hax, hxb]
  | cons r rest ih =>
    intro a b hax hxb
    obtain ⟨s, e⟩ := r
    unfold insertRange
    by_cases h1 : b < s
    · simp [h1, rangesMem, hax, hxb]
    · by_cases h2 : e < a
      · simp [h1, h2, rangesMem]
        refine Or.inr ?_
        exact ih a b hax hxb
      · simp only [h1, h2, if_false]
        exact ih (min a s) (max b e) (le_trans (Nat.min_le_left a s) hax)
          (lt_of_lt_of_le hxb (Nat.le_max_left b e))

/-- Coverage already present survives an `insertRange`. -/
theorem rangesMem_insertRange_of_mem (x : Nat) :
    ∀ (rs : List (Nat × Nat)) (a b : Nat), rangesMem rs x = true →
      rangesMem (insertRange a b rs) x = true := by
  intro rs
  induction rs with
  | nil => intro a b h; simp [rangesMem] at h
  | cons r rest ih =>
    intro a b h
    obtain ⟨s, e⟩ := r
    simp only [rangesMem, Bool.or_eq_true, Bool.and_eq_true, decide_eq_true_eq] at h
    unfold insertRange
    by_cases h1 : b < s
    · simp only [h1, if_true, rangesMem, Bool.or_eq_true, Bool.and_eq_true,
        decide_eq_true_eq]
      rcases h with h | h
      · exact Or.inr (Or.inl h)
      · exact Or.inr (Or.inr h)
    · by_cases h2 : e < a
      · simp only [h1, h2, if_false, if_true, rangesMem, Bool.or_eq_true,
          Bool.and_eq_true, decide_eq_true_eq]
        rcases h with h | h
        · exact Or.inl h
        · exact Or.inr (ih a b h)
      · simp only [h1, h2, if_false]
        rcases h with ⟨hsx, hxe⟩ | h
        · exact rangesMem_insertRange_self x rest (min a s) (max b e)
            (le_trans (Nat.min_le_right a s) hsx)
            (lt_of_lt_of_le hxe (Nat.le_max_right b e))
        · exact ih (min a s) (max b e) h

/-- A single random-access read never removes coverage. -/
theorem Covered.mem_addRange (c : Covered) (r : Nat × Nat) (x : Nat)
    (h : c.mem x = true) : (c.addRange r).mem x = true := by
  cases c with
  | full => rfl
  | ranges rs => exact rangesMem_insertRange_of_mem x rs r.1 r.2 h

/-- C2: coverage is non-decreasing under any sequence of random-access
reads, and a whole-file read always leaves the coverage equal to `Full`. -/
theorem C2_cache_monotonicity (c : Covered) (ops : List (Nat × Nat)) (x : Nat)
    (h : c.mem x = true) :
    (applyReads ops c).mem x = true
    ∧ ∀ c0 : Covered, c0.catRead = Covered.full := by
  refine ⟨?_, fun _ => rfl⟩
  induction ops generalizing c with
  | nil => exact h
  | cons op rest ih =>
    have : applyReads (op :: rest) c = applyReads rest (c.addRange op) := rfl
    rw [this]
    exact ih (c.addRange op) (Covered.mem_addRange c op x h)

/-- C2 witness: byte 2 of the initially covered range `[0, 4)` stays covered
after the reads `[10, 15)` and `[5, 10)`. -/
theorem C2_witness :
    (Covered.ranges [(0, 4)]).mem 2 = true
    ∧ (applyReads [(10, 15), (5, 10)] (Covered.ranges [(0, 4)])).mem 2 = true :=
  ⟨by decide, (C2_cache_monotonicity (Covered.ranges [(0, 4)]) [(10, 15), (5, 10)] 2
    (by decide)).1⟩

/-! ### Theorems about the staleness contract -/

/-- C3: a path present in the cache read with `check = false` returns the
old cached bytes for any current backend state (changed or deleted), while
reading with `check = true` against a backend whose size or mtime no longer
matches the stored metadata returns the fresh backend bytes. -/
theorem C3_staleness_contract (b : Backend) (c : CacheState) (p : String)
    (data : List Nat) (sz mt : Nat)
    (hc : alookup c.entries p = some (data, sz, mt)) :
    (cachedOpen false b c p).1 = some data
    ∧ ∀ data2 mt2, alookup b.files p = some (data2, mt2) →
        (data2.length, mt2) ≠ (sz, mt) →
        (cachedOpen true b c p).1 = some data2 := by
  constructor
  · unfold cachedOpen
    simp [hc]
  · intro data2 mt2 hb hne
    unfold cachedOpen
    simp only [hc, hb, if_true]
    have hcond : ¬(sz = data2.length ∧ mt = mt2) := by
      intro ⟨h1, h2⟩
      exact hne (by simp [h1, h2])
    simp [hcond]

/-- C3 witness: a cached entry for path `f` with bytes `[1, 2]` is served
stale under `check = false` after the backend changed to `[9, 9, 9]`, and
the changed backend bytes are served under `check = true`. -/
theorem C3_witness :
    (cachedOpen false ⟨[("f", ([9, 9, 9], 7))]⟩ ⟨[("f", ([1, 2], 2, 5))]⟩ "f").1
      = some [1, 2]
    ∧ (cachedOpen true ⟨[("f", ([9, 9, 9], 7))]⟩ ⟨[("f", ([1, 2], 2, 5))]⟩ "f").1
      = some [9, 9, 9] := by
  have h := C3_staleness_contract ⟨[("f", ([9, 9, 9], 7))]⟩ ⟨[("f", ([1, 2], 2, 5))]⟩
    "f" [1, 2] 2 5 (by decide)
  exact ⟨h.1, h.2 [9, 9, 9] 7 (by decide) (by decide)⟩

/-! ### Theorems about listing-cache keying -/

/-- C5: starting from an empty registry, an instance constructed with the
listing cache enabled and TTL `t` populates its dircache; re-resolving the
same options returns the same instance seeing that content, while options
with a different TTL `t2`, or with the cache disabled, resolve to an
instance that sees none of it. -/
theorem C5_listing_cache_keying (t t2 : Nat) (path : String) (l : List String)
    (hne : t2 ≠ t) :
    ((resolveHttp ⟨true, t⟩ (putListing ⟨true, t⟩ path l
        (resolveHttp ⟨true, t⟩ ⟨[], 0⟩).2)).1.1
      = (resolveHttp ⟨true, t⟩ ⟨[], 0⟩).1.1)
    ∧ (alookup (resolveHttp ⟨true, t⟩ (putListing ⟨true, t⟩ path l
        (resolveHttp ⟨true, t⟩ ⟨[], 0⟩).2)).1.2 path = some l)
    ∧ (alookup (resolveHttp ⟨true, t2⟩ (putListing ⟨true, t⟩ path l
        (resolveHttp ⟨true, t⟩ ⟨[], 0⟩).2)).1.2 path = none)
    ∧ (alookup (resolveHttp ⟨false, t⟩ (putListing ⟨true, t⟩ path l
        (resolveHttp ⟨true, t⟩ ⟨[], 0⟩).2)).1.2 path = none) := by
  have hne2 : t ≠ t2 := fun h => hne h.symm
  refine ⟨?_, ?_, ?_, ?_⟩ <;>
    simp [resolveHttp, putListing, alookup, aupdate, HttpOptions.mk.injEq, hne, hne2]

/-- C5 witness: the scenario of the reuse test, with TTL 5 populated and
TTL 666 seeing nothing. -/
theorem C5_witness :
    (((resolveHttp ⟨true, 5⟩ (putListing ⟨true, 5⟩ "d" ["f"]
        (resolveHttp ⟨true, 5⟩ ⟨[], 0⟩).2)).1.1
      = (resolveHttp ⟨true, 5⟩ ⟨[], 0⟩).1.1)
    ∧ (alookup (resolveHttp ⟨true, 5⟩ (putListing ⟨true, 5⟩ "d" ["f"]
        (resolveHttp ⟨true, 5⟩ ⟨[], 0⟩).2)).1.2 "d" = some ["f"])
    ∧ (alookup (resolveHttp ⟨true, 666⟩ (putListing ⟨true, 5⟩ "d" ["f"]
        (resolveHttp ⟨true, 5⟩ ⟨[], 0⟩).2)).1.2 "d" = none)
    ∧ (alookup (resolveHttp ⟨false, 5⟩ (putListing ⟨true, 5⟩ "d" ["f"]
        (resolveHttp ⟨true, 5⟩ ⟨[], 0⟩).2)).1.2 "d" = none)) :=
  C5_listing_cache_keying 5 666 "d" ["f"] (by decide)

/-! ### Theorems about the async/sync bridge -/

/-- C6: a blocking-mode call issued from the thread that runs the backend's
own event loop raises the descriptive reentrancy error, while a call from
any other thread returns the routine's result. -/
theorem C6_reentrancy_guard (br : Bridge) (tid : Nat) (r : Nat) :
    (tid = br.loopThread →
      br.sync tid r = Except.error "sync() called from thread running the event loop")
    ∧ (tid ≠ br.loopThread → br.sync tid r = Except.ok r) := by
  constructor <;> intro h <;> simp [Bridge.sync, h]

/-- C6 witness: on a loop owned by thread 0, a blocking call from thread 0
errors and a blocking call from thread 1 returns the result. -/
theorem C6_witness :
    (Bridge.mk 0).sync 0 (42 : Nat)
      = Except.error "sync() called from thread running the event loop"
    ∧ (Bridge.mk 0).sync 1 (42 : Nat) = Except.ok 42 :=
  ⟨(C6_reentrancy_guard ⟨0⟩ 0 42).1 rfl, (C6_reentrancy_guard ⟨0⟩ 1 42).2 (by decide)⟩

/-! ### Theorems about negative-offset range reads -/

/-- C7: on content of length at least 10 (resp. 2), a range read with
`start = -10` returns exactly the last 10 bytes, and a range read with
`end = -2` returns the whole object except its last 2 bytes. -/
theorem C7_negative_offsets (l : List Nat) (h10 : 10 ≤ l.length)
    (_h2 : 2 ≤ l.length) :
    read_range l (some (-10)) none = l.drop (l.length - 10)
    ∧ read_range l none (some (-2)) = l.take (l.length - 2) := by
  constructor
  · show (l.take l.length).drop (sliceIndex l.length (-10)) = l.drop (l.length - 10)
    rw [List.take_length]
    have hs : sliceIndex l.length (-10) = l.length - 10 := by
      unfold sliceIndex
      rw [if_pos (by norm_num)]
      omega
    rw [hs]
  · show (l.take (sliceIndex l.length (-2))).drop 0 = l.take (l.length - 2)
    rw [List.drop_zero]
    have he : sliceIndex l.length (-2) = l.length - 2 := by
      unfold sliceIndex
      rw [if_pos (by norm_num)]
      omega
    rw [he]

/-- C7 witness: on 14 bytes of content, `start = -10` yields the last 10
bytes and `end = -2` yields the first 12 bytes. -/
theorem C7_witness :
    10 ≤ (List.range 14).length
    ∧ read_range (List.range 14) (some (-10)) none
        = (List.range 14).drop ((List.range 14).length - 10)
    ∧ read_range (List.range 14) none (some (-2))
        = (List.range 14).take ((List.range 14).length - 2) :=
  ⟨by decide,
   (C7_negative_offsets (List.range 14) (by decide) (by decide)).1,
   (C7_negative_offsets (List.range 14) (by decide) (by decide)).2⟩

/-! ### Theorems about zero content-length handling -/

/-- C8: when the capability probe reports a `Content-Length` of 0, the
handle is not treated as an empty object: the strategy falls back to
streaming and reading returns the object's actual full content. -/
theorem C8_zero_content_length (content : List Nat) (probe : Option Nat)
    (h : probe = some 0) :
    chooseStrategy probe = Strategy.streaming
    ∧ readAll content (chooseStrategy probe) = content := by
  subst h
  exact ⟨rfl, rfl⟩

/-- C8 witness: a zero-length probe over the content `[3, 1, 4]` still
reads all three bytes. -/
theorem C8_witness :
    chooseStrategy (some 0) = Strategy.streaming
    ∧ readAll [3, 1, 4] (chooseStrategy (some 0)) = [3, 1, 4] :=
  C8_zero_content_length [3, 1, 4] (some 0) rfl

end fsspec
